import Mathlib

/-!
Shallow embedding of the teacher-campus assignment subsystem of the
LXP school-administration repository.

The repository contains two variants of the `CampusTeacherService` class:
  * `CampusTeacherService` below embeds `src/src/server/services/CampusTeacherService.ts`;
  * `CampusTeacherServiceAlt` below embeds the variant file `src/unnamed/part_004`.
`TeacherService` embeds `src/src/server/services/TeacherService.ts`.

The Prisma store is modelled as an explicit `DB` record of table rows.
The external authorization collaborator (`CampusUserService.hasPermission`
for the capability `MANAGE_CAMPUS_TEACHERS`) is passed in as a boolean
function `perm : userId -> campusId -> Bool`.  Wall-clock time
(`new Date()` and column defaults) is passed in as a natural number `now`.
A thrown `TRPCError` is modelled as an `Except` error paired with the
database state at the moment of the throw.
-/

/-- Prisma `Status` enum (`src/src/types/enums`): ACTIVE, INACTIVE, ARCHIVED. -/
inductive Status where
  | ACTIVE
  | INACTIVE
  | ARCHIVED
deriving DecidableEq, Repr

/-- TRPCError codes thrown by the services. -/
inductive TRPCCode where
  | FORBIDDEN
  | NOT_FOUND
  | CONFLICT
  | BAD_REQUEST
  | INTERNAL_SERVER_ERROR
deriving DecidableEq, Repr

/-- One row of the `teacherCampus` join table.  `id` is the Prisma-generated
row id (modelled as a counter); timestamps are naturals. -/
structure TeacherCampus where
  id : Nat
  teacherId : String
  campusId : String
  isPrimary : Bool
  status : Status
  joinedAt : Nat
  createdAt : Nat
  updatedAt : Nat
deriving DecidableEq, Repr

/-- One row of the `teacherProfile` table (only the columns the services read). -/
structure TeacherProfile where
  id : String
  userId : String
  teacherType : String
  specialization : Option String
deriving DecidableEq, Repr

/-- One row of the `campus` table (only the columns the services read). -/
structure Campus where
  id : String
  name : String
deriving DecidableEq, Repr

/-- One row of the `teacherSubject` join table. -/
structure TeacherSubject where
  teacherId : String
  subjectId : String
  status : Status
deriving DecidableEq, Repr

/-- One row of the `teacherClass` join table. -/
structure TeacherClass where
  teacherId : String
  classId : String
  status : Status
deriving DecidableEq, Repr

/-- The relational store: the tables touched by the embedded services plus
the id-generation counters. -/
structure DB where
  teacherCampus : List TeacherCampus
  teacherProfiles : List TeacherProfile
  campuses : List Campus
  teacherSubject : List TeacherSubject
  teacherClass : List TeacherClass
  nextId : Nat
  nextProfileId : Nat
deriving DecidableEq, Repr

/-- Prisma `teacherCampus.findUnique` on the compound key `teacherId_campusId`. -/
def findTeacherCampus (db : DB) (teacherId campusId : String) : Option TeacherCampus :=
  db.teacherCampus.find? (fun r => r.teacherId == teacherId && r.campusId == campusId)

/-- Prisma `teacherProfile.findUnique` on `id`. -/
def findTeacherProfile (db : DB) (teacherId : String) : Option TeacherProfile :=
  db.teacherProfiles.find? (fun p => p.id == teacherId)

/-- Prisma `campus.findUnique` on `id`. -/
def findCampus (db : DB) (campusId : String) : Option Campus :=
  db.campuses.find? (fun c => c.id == campusId)

/-- Number of rows of a teacher that are ACTIVE and flagged primary
(the quantity bounded by invariant I1). -/
def countActivePrimary (teacherId : String) (rows : List TeacherCampus) : Nat :=
  (rows.filter (fun r => r.teacherId == teacherId && r.status == Status.ACTIVE && r.isPrimary)).length

/-- Number of rows of a teacher flagged primary, regardless of status. -/
def countPrimary (teacherId : String) (rows : List TeacherCampus) : Nat :=
  (rows.filter (fun r => r.teacherId == teacherId && r.isPrimary)).length

/-- Well-formedness matching the schema constraints: the compound key
(teacherId, campusId) is unique across rows and row ids are distinct. -/
def wfRows : List TeacherCampus → Bool
  | [] => true
  | r :: rs =>
      rs.all (fun s => (!(s.teacherId == r.teacherId && s.campusId == r.campusId)) && s.id != r.id)
        && wfRows rs

namespace CampusTeacherService

/-- Embeds `assignTeacherToCampus` of `src/src/server/services/CampusTeacherService.ts`
(lines 32-124): permission check; if an assignment for the pair already exists it is
UPDATED in place with the supplied `isPrimary` and status ACTIVE; otherwise a new row
is created with status ACTIVE.  No clearing of other primary rows happens on either
path.  The `include` join decorations of the returned record are presentation-only
and omitted; the returned value is the affected row. -/
def assignTeacherToCampus (perm : String → String → Bool) (now : Nat)
    (userId campusId teacherId : String) (isPrimary : Bool) (db : DB) :
    DB × Except TRPCCode TeacherCampus :=
  if !(perm userId campusId) then
    (db, .error .FORBIDDEN)
  else
    match findTeacherCampus db teacherId campusId with
    | some ex =>
        let db' := { db with teacherCampus := db.teacherCampus.map (fun r =>
          if r.id == ex.id then { r with isPrimary := isPrimary, status := Status.ACTIVE } else r) }
        (db', .ok { ex with isPrimary := isPrimary, status := Status.ACTIVE })
    | none =>
        let row : TeacherCampus :=
          { id := db.nextId, teacherId := teacherId, campusId := campusId,
            isPrimary := isPrimary, status := Status.ACTIVE,
            joinedAt := now, createdAt := now, updatedAt := now }
        ({ db with teacherCampus := db.teacherCampus ++ [row], nextId := db.nextId + 1 },
         .ok row)

/-- Embeds `removeTeacherFromCampus` of `src/src/server/services/CampusTeacherService.ts`
(lines 126-170): permission check, existence check, then `delete` of the found row by id. -/
def removeTeacherFromCampus (perm : String → String → Bool)
    (userId campusId teacherId : String) (db : DB) :
    DB × Except TRPCCode Bool :=
  if !(perm userId campusId) then
    (db, .error .FORBIDDEN)
  else
    match findTeacherCampus db teacherId campusId with
    | none => (db, .error .NOT_FOUND)
    | some ex =>
        ({ db with teacherCampus := db.teacherCampus.filter (fun r => r.id != ex.id) },
         .ok true)

/-- Embeds `updateTeacherCampusStatus` of `src/src/server/services/CampusTeacherService.ts`
(lines 353-419): permission check, existence check, then `update` of the found row
writing only the `status` column. -/
def updateTeacherCampusStatus (perm : String → String → Bool)
    (userId campusId teacherId : String) (status : Status) (db : DB) :
    DB × Except TRPCCode TeacherCampus :=
  if !(perm userId campusId) then
    (db, .error .FORBIDDEN)
  else
    match findTeacherCampus db teacherId campusId with
    | none => (db, .error .NOT_FOUND)
    | some ex =>
        ({ db with teacherCampus := db.teacherCampus.map (fun r =>
            if r.id == ex.id then { r with status := status } else r) },
         .ok { ex with status := status })

/-- Embeds `setPrimaryCampus` of `src/src/server/services/CampusTeacherService.ts`
(lines 421-516): teacher-profile lookup (NOT_FOUND if missing); the actor must be the
teacher themself or hold the capability (FORBIDDEN otherwise); assignment lookup
(NOT_FOUND if missing; note: its status is NOT required to be ACTIVE); then
`updateMany` clearing `isPrimary` on ALL of the teacher's rows followed by a separate
`update` setting `isPrimary` on the target row. -/
def setPrimaryCampus (perm : String → String → Bool)
    (userId teacherId campusId : String) (db : DB) :
    DB × Except TRPCCode TeacherCampus :=
  match findTeacherProfile db teacherId with
  | none => (db, .error .NOT_FOUND)
  | some profile =>
      let isTeacher := userId == profile.userId
      if !isTeacher && !(perm userId campusId) then
        (db, .error .FORBIDDEN)
      else
        match findTeacherCampus db teacherId campusId with
        | none => (db, .error .NOT_FOUND)
        | some ex =>
            let cleared := db.teacherCampus.map (fun r =>
              if r.teacherId == teacherId then { r with isPrimary := false } else r)
            let final := cleared.map (fun r =>
              if r.id == ex.id then { r with isPrimary := true } else r)
            ({ db with teacherCampus := final }, .ok { ex with isPrimary := true })

end CampusTeacherService

/-- Record shape returned by `getCampusesForTeacher` in the `part_004` variant
(interface `CampusWithAssignment`). -/
structure CampusWithAssignment where
  id : String
  name : String
  status : Status
  isPrimary : Bool
  joinedAt : Nat
  campusId : String
deriving DecidableEq, Repr

namespace CampusTeacherServiceAlt

/-- Embeds `assignTeacherToCampus` of the variant file `src/unnamed/part_004`
(lines 67-191): permission check; teacher-profile and campus existence checks
(NOT_FOUND); CONFLICT when an assignment for the pair already exists; when
`isPrimary` is requested, `updateMany` clears `isPrimary` on every row of the
teacher that currently has `isPrimary = true` (regardless of status); then the
new row is created with status ACTIVE and `joinedAt = now`. -/
def assignTeacherToCampus (perm : String → String → Bool) (now : Nat)
    (userId campusId teacherId : String) (isPrimary : Bool) (db : DB) :
    DB × Except TRPCCode TeacherCampus :=
  if !(perm userId campusId) then
    (db, .error .FORBIDDEN)
  else
    match findTeacherProfile db teacherId with
    | none => (db, .error .NOT_FOUND)
    | some _ =>
        match findCampus db campusId with
        | none => (db, .error .NOT_FOUND)
        | some _ =>
            match findTeacherCampus db teacherId campusId with
            | some _ => (db, .error .CONFLICT)
            | none =>
                let db1 :=
                  if isPrimary then
                    { db with teacherCampus := db.teacherCampus.map (fun r =>
                        if r.teacherId == teacherId && r.isPrimary then
                          { r with isPrimary := false } else r) }
                  else db
                let row : TeacherCampus :=
                  { id := db1.nextId, teacherId := teacherId, campusId := campusId,
                    isPrimary := isPrimary, status := Status.ACTIVE,
                    joinedAt := now, createdAt := now, updatedAt := now }
                ({ db1 with teacherCampus := db1.teacherCampus ++ [row],
                            nextId := db1.nextId + 1 },
                 .ok row)

/-- Embeds `removeTeacherFromCampus` of `src/unnamed/part_004` (lines 193-240):
permission check, existence check, then `delete` on the compound key. -/
def removeTeacherFromCampus (perm : String → String → Bool)
    (userId campusId teacherId : String) (db : DB) :
    DB × Except TRPCCode Bool :=
  if !(perm userId campusId) then
    (db, .error .FORBIDDEN)
  else
    match findTeacherCampus db teacherId campusId with
    | none => (db, .error .NOT_FOUND)
    | some _ =>
        ({ db with teacherCampus := db.teacherCampus.filter (fun r =>
            !(r.teacherId == teacherId && r.campusId == campusId)) },
         .ok true)

/-- Embeds `getCampusesForTeacher` of `src/unnamed/part_004` (lines 337-374):
teacher existence check, then `findMany` of the teacher rows filtered to ACTIVE
unless `includeInactive`, mapped to `CampusWithAssignment` (the campus name is
looked up through the `include`; a dangling campus reference yields the empty
name here, a case referential integrity excludes). -/
def getCampusesForTeacher (userId teacherId : String) (includeInactive : Bool)
    (db : DB) : Except TRPCCode (List CampusWithAssignment) :=
  match findTeacherProfile db teacherId with
  | none => .error .NOT_FOUND
  | some _ =>
      let rows := db.teacherCampus.filter (fun r =>
        r.teacherId == teacherId && (includeInactive || r.status == Status.ACTIVE))
      .ok (rows.map (fun tc =>
        { id := tc.campusId,
          name := ((findCampus db tc.campusId).map Campus.name).getD "",
          status := tc.status, isPrimary := tc.isPrimary,
          joinedAt := tc.joinedAt, campusId := tc.campusId }))

/-- Embeds `updateTeacherCampusStatus` of `src/unnamed/part_004` (lines 376-457):
permission check, existence check, then `update` on the compound key writing the
`status` column and `updatedAt = new Date()`. -/
def updateTeacherCampusStatus (perm : String → String → Bool) (now : Nat)
    (userId campusId teacherId : String) (status : Status) (db : DB) :
    DB × Except TRPCCode TeacherCampus :=
  if !(perm userId campusId) then
    (db, .error .FORBIDDEN)
  else
    match findTeacherCampus db teacherId campusId with
    | none => (db, .error .NOT_FOUND)
    | some ex =>
        ({ db with teacherCampus := db.teacherCampus.map (fun r =>
            if r.teacherId == teacherId && r.campusId == campusId then
              { r with status := status, updatedAt := now } else r) },
         .ok { ex with status := status, updatedAt := now })

/-- First mutation step of `setPrimaryCampus` in `src/unnamed/part_004`
(lines 482-491): `updateMany` clearing `isPrimary` on every row of the teacher
that currently has `isPrimary = true`.  It runs as its own awaited call, outside
any transaction, so the database state it produces is reachable on its own. -/
def setPrimaryClearStep (teacherId : String) (db : DB) : DB :=
  { db with teacherCampus := db.teacherCampus.map (fun r =>
      if r.teacherId == teacherId && r.isPrimary then { r with isPrimary := false } else r) }

/-- Second mutation step of `setPrimaryCampus` in `src/unnamed/part_004`
(lines 493-512): `update` on the compound key setting `isPrimary = true`. -/
def setPrimarySetStep (teacherId campusId : String) (db : DB) : DB :=
  { db with teacherCampus := db.teacherCampus.map (fun r =>
      if r.teacherId == teacherId && r.campusId == campusId then
        { r with isPrimary := true } else r) }

/-- Embeds `setPrimaryCampus` of `src/unnamed/part_004` (lines 459-544):
existence check on the compound key (NOT_FOUND; neither the actor's permission
nor the row's status is checked), then the two sequential mutation steps.
The `userId` parameter is received but never consulted, as in the source. -/
def setPrimaryCampus (userId teacherId campusId : String) (db : DB) :
    DB × Except TRPCCode TeacherCampus :=
  match findTeacherCampus db teacherId campusId with
  | none => (db, .error .NOT_FOUND)
  | some ex =>
      let _ := userId
      (setPrimarySetStep teacherId campusId (setPrimaryClearStep teacherId db),
       .ok { ex with isPrimary := true })

end CampusTeacherServiceAlt

namespace TeacherService

/-- Parsed `teacherProfileSchema` input (`src/src/server/services/TeacherService.ts`
lines 6-11). -/
structure TeacherProfileInput where
  userId : String
  teacherType : String
  specialization : Option String
deriving DecidableEq, Repr

/-- Parsed `teacherAssignmentSchema` input (`src/src/server/services/TeacherService.ts`
lines 13-17); the zod defaults (`isPrimary = false`, `status = ACTIVE`) are applied
by parsing, so fields here are concrete. -/
structure TeacherAssignmentInput where
  campusId : String
  isPrimary : Bool
  status : Status
deriving DecidableEq, Repr

/-- Embeds `upsertTeacher` of `src/src/server/services/TeacherService.ts`
(lines 28-154), success path of the transaction: upsert of the profile keyed by
`userId`; when the assignments list is nonempty, `deleteMany` of the teacher's
rows whose campus is not in the list, then per-assignment upsert on the compound
key writing `isPrimary` and `status` exactly as supplied (creation also sets
`joinedAt = now`); subject and class assignments are synced likewise
(`deleteMany` of those not listed, `createMany` with `skipDuplicates`). -/
def upsertTeacher (now : Nat) (profile : TeacherProfileInput)
    (assignments : List TeacherAssignmentInput)
    (subjects : List String) (classes : List String) (db : DB) :
    DB × TeacherProfile :=
  let step1 : DB × TeacherProfile :=
    match db.teacherProfiles.find? (fun p => p.userId == profile.userId) with
    | some p =>
        let p' : TeacherProfile :=
          { p with teacherType := profile.teacherType,
                   specialization := profile.specialization }
        ({ db with teacherProfiles := db.teacherProfiles.map (fun q =>
            if q.id == p.id then p' else q) }, p')
    | none =>
        let p' : TeacherProfile :=
          { id := "p" ++ toString db.nextProfileId, userId := profile.userId,
            teacherType := profile.teacherType,
            specialization := profile.specialization }
        ({ db with teacherProfiles := db.teacherProfiles ++ [p'],
                   nextProfileId := db.nextProfileId + 1 }, p')
  let db1 := step1.1
  let prof := step1.2
  let db2 :=
    if assignments.isEmpty then db1
    else
      let keep := assignments.map TeacherAssignmentInput.campusId
      let afterDelete :=
        { db1 with teacherCampus := db1.teacherCampus.filter (fun r =>
            !(r.teacherId == prof.id) || keep.contains r.campusId) }
      assignments.foldl (fun acc a =>
        match acc.teacherCampus.find? (fun r =>
            r.teacherId == prof.id && r.campusId == a.campusId) with
        | some ex =>
            { acc with teacherCampus := acc.teacherCampus.map (fun r =>
                if r.id == ex.id then
                  { r with isPrimary := a.isPrimary, status := a.status } else r) }
        | none =>
            { acc with
              teacherCampus := acc.teacherCampus ++
                [{ id := acc.nextId, teacherId := prof.id, campusId := a.campusId,
                   isPrimary := a.isPrimary, status := a.status,
                   joinedAt := now, createdAt := now, updatedAt := now }],
              nextId := acc.nextId + 1 }) afterDelete
  let db3 :=
    if subjects.isEmpty then db2
    else
      let afterDelete :=
        { db2 with teacherSubject := db2.teacherSubject.filter (fun s =>
            !(s.teacherId == prof.id) || subjects.contains s.subjectId) }
      subjects.foldl (fun acc sid =>
        if acc.teacherSubject.any (fun s =>
            s.teacherId == prof.id && s.subjectId == sid) then acc
        else
          { acc with teacherSubject := acc.teacherSubject ++
              [{ teacherId := prof.id, subjectId := sid, status := Status.ACTIVE }] })
        afterDelete
  let db4 :=
    if classes.isEmpty then db3
    else
      let afterDelete :=
        { db3 with teacherClass := db3.teacherClass.filter (fun c =>
            !(c.teacherId == prof.id) || classes.contains c.classId) }
      classes.foldl (fun acc cid =>
        if acc.teacherClass.any (fun c =>
            c.teacherId == prof.id && c.classId == cid) then acc
        else
          { acc with teacherClass := acc.teacherClass ++
              [{ teacherId := prof.id, classId := cid, status := Status.ACTIVE }] })
        afterDelete
  (db4, prof)

end TeacherService

/-- Authorization stub granting every capability (the external CampusUserService). -/
def permAll : String → String → Bool := fun _ _ => true

/-- Authorization stub denying every capability. -/
def permNone : String → String → Bool := fun _ _ => false

/-- Concrete teacherCampus row builder for test states. -/
def mkRow (id : Nat) (t c : String) (p : Bool) (s : Status) : TeacherCampus :=
  { id := id, teacherId := t, campusId := c, isPrimary := p, status := s,
    joinedAt := 0, createdAt := 0, updatedAt := 0 }

/-- Concrete teacher profile: teacher "t1" owned by user "u1". -/
def profT1 : TeacherProfile :=
  { id := "t1", userId := "u1", teacherType := "REGULAR", specialization := none }

/-- Concrete store with teacher t1, campuses c1 and c2, and the given rows. -/
def baseDB (rows : List TeacherCampus) : DB :=
  { teacherCampus := rows, teacherProfiles := [profT1],
    campuses := [{ id := "c1", name := "Campus 1" }, { id := "c2", name := "Campus 2" }],
    teacherSubject := [], teacherClass := [], nextId := 10, nextProfileId := 1 }

/-- State: t1 has one ACTIVE primary assignment, to c1. -/
def dbOnePrimary : DB := baseDB [mkRow 0 "t1" "c1" true Status.ACTIVE]

/-- State: t1 is ACTIVE on c1 (primary) and c2 (non-primary). -/
def dbTwoCampuses : DB :=
  baseDB [mkRow 0 "t1" "c1" true Status.ACTIVE, mkRow 1 "t1" "c2" false Status.ACTIVE]

/-- State: t1 has a single INACTIVE assignment to c1 still flagged primary. -/
def dbInactivePrimary : DB := baseDB [mkRow 0 "t1" "c1" true Status.INACTIVE]

/-- State: t1 has no campus assignments. -/
def dbNoAssignments : DB := baseDB []

/-- State: t1 has a single ACTIVE non-primary assignment to c1. -/
def dbNonPrimary : DB := baseDB [mkRow 0 "t1" "c1" false Status.ACTIVE]

/-- State: t1 has a single INACTIVE non-primary assignment to c1. -/
def dbInactiveAssignment : DB := baseDB [mkRow 0 "t1" "c1" false Status.INACTIVE]

/-- State: t1 has an ACTIVE primary on c1 and an INACTIVE row on c2 that still carries the primary flag. -/
def dbActiveInactivePrimaries : DB :=
  baseDB [mkRow 0 "t1" "c1" true Status.ACTIVE, mkRow 1 "t1" "c2" true Status.INACTIVE]

lemma countPrimary_eq_countP (t : String) (l : List TeacherCampus) :
    countPrimary t l = l.countP (fun r => r.teacherId == t && r.isPrimary) := by
  simp [countPrimary, List.countP_eq_length_filter]

lemma countActivePrimary_eq_countP (t : String) (l : List TeacherCampus) :
    countActivePrimary t l =
      l.countP (fun r => r.teacherId == t && r.status == Status.ACTIVE && r.isPrimary) := by
  simp [countActivePrimary, List.countP_eq_length_filter]

lemma countActivePrimary_le_countPrimary (t : String) (l : List TeacherCampus) :
    countActivePrimary t l ≤ countPrimary t l := by
  rw [countPrimary_eq_countP, countActivePrimary_eq_countP]
  apply List.countP_mono_left
  intro r _ h
  simp only [Bool.and_eq_true] at *
  exact ⟨h.1.1, h.2⟩

lemma countPrimary_append (t : String) (l1 l2 : List TeacherCampus) :
    countPrimary t (l1 ++ l2) = countPrimary t l1 + countPrimary t l2 := by
  simp [countPrimary_eq_countP, List.countP_append]

lemma countActivePrimary_append (t : String) (l1 l2 : List TeacherCampus) :
    countActivePrimary t (l1 ++ l2) = countActivePrimary t l1 + countActivePrimary t l2 := by
  simp [countActivePrimary_eq_countP, List.countP_append]

lemma countPrimary_singleton (tid : String) (r : TeacherCampus) :
    countPrimary tid [r] = if r.teacherId == tid && r.isPrimary then 1 else 0 := by
  by_cases h : (r.teacherId == tid && r.isPrimary) = true <;> simp [countPrimary, List.filter, h]

lemma countActivePrimary_singleton (tid : String) (r : TeacherCampus) :
    countActivePrimary tid [r] =
      if r.teacherId == tid && r.status == Status.ACTIVE && r.isPrimary then 1 else 0 := by
  by_cases h : (r.teacherId == tid && r.status == Status.ACTIVE && r.isPrimary) = true <;>
    simp [countActivePrimary, List.filter, h]

lemma countPrimary_clearMap_self (t : String) (l : List TeacherCampus) :
    countPrimary t (l.map (fun r =>
      if r.teacherId == t && r.isPrimary then { r with isPrimary := false } else r)) = 0 := by
  rw [countPrimary_eq_countP, List.countP_map, List.countP_eq_zero]
  intro r _
  by_cases h1 : r.teacherId == t <;> by_cases h3 : r.isPrimary <;>
    simp [Function.comp, h1, h3]

lemma countPrimary_clearMap_le (tid t : String) (l : List TeacherCampus) :
    countPrimary tid (l.map (fun r =>
      if r.teacherId == t && r.isPrimary then { r with isPrimary := false } else r)) ≤
      countPrimary tid l := by
  rw [countPrimary_eq_countP, countPrimary_eq_countP, List.countP_map]
  apply List.countP_mono_left
  intro r _ h
  by_cases h1 : r.teacherId == t <;> by_cases h3 : r.isPrimary <;>
    simp_all [Function.comp]

lemma countPrimary_filter_le (t : String) (p : TeacherCampus → Bool) (l : List TeacherCampus) :
    countPrimary t (l.filter p) ≤ countPrimary t l := by
  rw [countPrimary_eq_countP, countPrimary_eq_countP]
  exact (List.filter_sublist l).countP_le _

lemma wfRows_cons {r : TeacherCampus} {l : List TeacherCampus}
    (h : wfRows (r :: l) = true) :
    (∀ s ∈ l, ¬(s.teacherId = r.teacherId ∧ s.campusId = r.campusId) ∧ s.id ≠ r.id)
      ∧ wfRows l = true := by
  simp only [wfRows, Bool.and_eq_true, List.all_eq_true] at h
  refine ⟨fun s hs => ?_, h.2⟩
  have := h.1 s hs
  simp only [Bool.and_eq_true, Bool.not_eq_true', bne_iff_ne, ne_eq] at this
  constructor
  · intro hc
    have : (s.teacherId == r.teacherId && s.campusId == r.campusId) = false := this.1
    simp [hc.1, hc.2] at this
  · exact this.2

lemma wf_countPair_le_one (t c : String) (l : List TeacherCampus)
    (h : wfRows l = true) :
    l.countP (fun r => r.teacherId == t && r.campusId == c) ≤ 1 := by
  induction l with
  | nil => simp
  | cons r l ih =>
      obtain ⟨hall, hl⟩ := wfRows_cons h
      by_cases hr : (r.teacherId == t && r.campusId == c) = true
      · have hzero : l.countP (fun s => s.teacherId == t && s.campusId == c) = 0 := by
          rw [List.countP_eq_zero]
          intro s hs
          have := (hall s hs).1
          simp only [Bool.and_eq_true, beq_iff_eq] at hr ⊢
          intro hcon
          exact this ⟨hcon.1.trans hr.1.symm, hcon.2.trans hr.2.symm⟩
        simp [List.countP_cons, hr, hzero]
      · simp only [List.countP_cons, hr]
        simpa using ih hl

lemma wf_countId_le_one (i : Nat) (l : List TeacherCampus)
    (h : wfRows l = true) :
    l.countP (fun r => r.id == i) ≤ 1 := by
  induction l with
  | nil => simp
  | cons r l ih =>
      obtain ⟨hall, hl⟩ := wfRows_cons h
      by_cases hr : (r.id == i) = true
      · have hzero : l.countP (fun s => s.id == i) = 0 := by
          rw [List.countP_eq_zero]
          intro s hs
          have := (hall s hs).2
          simp only [beq_iff_eq] at hr ⊢
          omega
        simp [List.countP_cons, hr, hzero]
      · simp only [List.countP_cons, hr]
        simpa using ih hl

lemma wf_id_inj {l : List TeacherCampus} (h : wfRows l = true) :
    ∀ r ∈ l, ∀ s ∈ l, r.id = s.id → r = s := by
  induction l with
  | nil => intro r hr; simp at hr
  | cons a l ih =>
      obtain ⟨hall, hl⟩ := wfRows_cons h
      intro r hr s hs hid
      rcases List.mem_cons.mp hr with hra | hrl <;>
        rcases List.mem_cons.mp hs with hsa | hsl
      · rw [hra, hsa]
      · subst hra
        exact absurd hid.symm (hall s hsl).2
      · subst hsa
        exact absurd hid (hall r hrl).2
      · exact ih hl r hrl s hsl hid

lemma wf_pair_inj {l : List TeacherCampus} (h : wfRows l = true) :
    ∀ r ∈ l, ∀ s ∈ l, r.teacherId = s.teacherId → r.campusId = s.campusId → r = s := by
  induction l with
  | nil => intro r hr; simp at hr
  | cons a l ih =>
      obtain ⟨hall, hl⟩ := wfRows_cons h
      intro r hr s hs ht hc
      rcases List.mem_cons.mp hr with hra | hrl <;>
        rcases List.mem_cons.mp hs with hsa | hsl
      · rw [hra, hsa]
      · subst hra
        exact absurd ⟨ht.symm, hc.symm⟩ (hall s hsl).1
      · subst hsa
        exact absurd ⟨ht, hc⟩ (hall r hrl).1
      · exact ih hl r hrl s hsl ht hc

lemma findTeacherCampus_spec {db : DB} {t c : String} {ex : TeacherCampus}
    (h : findTeacherCampus db t c = some ex) :
    ex ∈ db.teacherCampus ∧ ex.teacherId = t ∧ ex.campusId = c := by
  have hmem := List.mem_of_find?_eq_some h
  have hp := List.find?_some h
  simp only [Bool.and_eq_true, beq_iff_eq] at hp
  exact ⟨hmem, hp.1, hp.2⟩

lemma findTeacherCampus_none {db : DB} {t c : String}
    (h : findTeacherCampus db t c = none) :
    ∀ r ∈ db.teacherCampus, ¬(r.teacherId = t ∧ r.campusId = c) := by
  intro r hr hc
  have := List.find?_eq_none.mp h r hr
  simp [hc.1, hc.2] at this

-- set-after-clear: the primary count of the operated teacher becomes the
-- number of rows carrying the operated compound key

lemma countPair_eq_one {db : DB} {t c : String} {ex : TeacherCampus}
    (hwf : wfRows db.teacherCampus = true)
    (h : findTeacherCampus db t c = some ex) :
    db.teacherCampus.countP (fun r => r.teacherId == t && r.campusId == c) = 1 := by
  obtain ⟨hmem, ht, hc⟩ := findTeacherCampus_spec h
  have hle := wf_countPair_le_one t c db.teacherCampus hwf
  have hpos : 0 < db.teacherCampus.countP (fun r => r.teacherId == t && r.campusId == c) := by
    rw [List.countP_pos_iff]
    exact ⟨ex, hmem, by simp [ht, hc]⟩
  omega

lemma countId_eq_one {db : DB} {t c : String} {ex : TeacherCampus}
    (hwf : wfRows db.teacherCampus = true)
    (h : findTeacherCampus db t c = some ex) :
    db.teacherCampus.countP (fun r => r.id == ex.id) = 1 := by
  obtain ⟨hmem, _, _⟩ := findTeacherCampus_spec h
  have hle := wf_countId_le_one ex.id db.teacherCampus hwf
  have hpos : 0 < db.teacherCampus.countP (fun r => r.id == ex.id) := by
    rw [List.countP_pos_iff]
    exact ⟨ex, hmem, by simp⟩
  omega

lemma countPrimary_set_clear (t c : String) (l : List TeacherCampus) :
    countPrimary t
      ((l.map (fun r => if r.teacherId == t && r.isPrimary then { r with isPrimary := false } else r)).map
        (fun r => if r.teacherId == t && r.campusId == c then { r with isPrimary := true } else r)) =
      l.countP (fun r => r.teacherId == t && r.campusId == c) := by
  rw [countPrimary_eq_countP, List.countP_map, List.countP_map]
  apply List.countP_congr
  intro r _
  by_cases h1 : r.teacherId == t <;> by_cases h2 : r.campusId == c <;>
    by_cases h3 : r.isPrimary <;> simp [Function.comp, h1, h2, h3]

-- frame: for a different person the set-after-clear pair leaves the primary
-- count unchanged

lemma countPrimary_set_clear_other (tid t c : String) (hne : tid ≠ t)
    (l : List TeacherCampus) :
    countPrimary tid
      ((l.map (fun r => if r.teacherId == t && r.isPrimary then { r with isPrimary := false } else r)).map
        (fun r => if r.teacherId == t && r.campusId == c then { r with isPrimary := true } else r)) =
      countPrimary tid l := by
  rw [countPrimary_eq_countP, countPrimary_eq_countP, List.countP_map, List.countP_map]
  apply List.countP_congr
  intro r _
  by_cases h1 : r.teacherId == t <;> by_cases h2 : r.campusId == c <;>
    by_cases h3 : r.isPrimary <;>
      simp_all [Function.comp] <;> simp [show ¬ (t = tid) from fun hh => hne hh.symm]

-- status update (keyed by the compound key) leaves every primary count unchanged

lemma countPrimary_statusMap (tid t c : String) (s : Status) (n : Nat)
    (l : List TeacherCampus) :
    countPrimary tid (l.map (fun r =>
      if r.teacherId == t && r.campusId == c then { r with status := s, updatedAt := n } else r)) =
      countPrimary tid l := by
  rw [countPrimary_eq_countP, countPrimary_eq_countP, List.countP_map]
  apply List.countP_congr
  intro r _
  by_cases h1 : r.teacherId == t <;> by_cases h2 : r.campusId == c <;>
    simp [Function.comp, h1, h2]

lemma pair_pred_false {r : TeacherCampus} {t c : String}
    (hne : ¬(r.teacherId = t ∧ r.campusId = c)) :
    (r.teacherId == t && r.campusId == c) = false := by
  by_cases h1 : r.teacherId = t <;> by_cases h2 : r.campusId = c
  · exact absurd ⟨h1, h2⟩ hne
  · simp [h1, h2]
  · simp [h1, h2]
  · simp [h1, h2]

lemma length_filter_not_add_countP (p : TeacherCampus → Bool) (l : List TeacherCampus) :
    (l.filter (fun r => !(p r))).length + l.countP p = l.length := by
  rw [← List.countP_eq_length_filter]
  have hc : l.countP (fun r => !(p r)) = l.countP (fun a => decide ¬(p a = true)) := by
    apply List.countP_congr
    intro a _
    by_cases h : p a = true <;> simp [h]
  rw [hc]
  have := List.length_eq_countP_add_countP p l
  omega

lemma ne_id_of_ne_pair {db : DB} {tid cid : String} {ex : TeacherCampus}
    (hwf : wfRows db.teacherCampus = true)
    (hpair : findTeacherCampus db tid cid = some ex)
    {r : TeacherCampus} (hr : r ∈ db.teacherCampus)
    (hne : ¬(r.teacherId = tid ∧ r.campusId = cid)) : r.id ≠ ex.id := by
  obtain ⟨hmem, ht, hc⟩ := findTeacherCampus_spec hpair
  intro hid
  have heq := wf_id_inj hwf r hr ex hmem hid
  rw [heq] at hne
  exact hne ⟨ht, hc⟩

lemma assignAlt_preserves_le_one (perm : String → String → Bool) (now : Nat)
    (userId campusId teacherId tid : String) (isPrimary : Bool) (db : DB)
    (hpre : countPrimary tid db.teacherCampus ≤ 1) :
    countPrimary tid ((CampusTeacherServiceAlt.assignTeacherToCampus perm now
      userId campusId teacherId isPrimary db).1).teacherCampus ≤ 1 := by
  unfold CampusTeacherServiceAlt.assignTeacherToCampus
  by_cases hperm : perm userId campusId = true
  case neg => simp [hperm, hpre]
  simp only [hperm, Bool.not_true, Bool.false_eq_true, if_false, if_neg]
  cases hfp : findTeacherProfile db teacherId with
  | none => simpa [hfp] using hpre
  | some p =>
    cases hfc : findCampus db campusId with
    | none => simpa [hfp, hfc] using hpre
    | some camp =>
      cases hpair : findTeacherCampus db teacherId campusId with
      | some ex => simpa [hfp, hfc, hpair] using hpre
      | none =>
        simp only [hfp, hfc, hpair]
        cases hb : isPrimary with
        | false =>
            simp only [hb, if_false, Bool.false_eq_true]
            rw [countPrimary_append, countPrimary_singleton]
            simp only [Bool.and_false, if_false, Bool.false_eq_true]
            omega
        | true =>
            simp only [hb, if_true]
            rw [countPrimary_append, countPrimary_singleton]
            by_cases htid : tid = teacherId
            · subst htid
              rw [countPrimary_clearMap_self]
              simp
            · have hle := countPrimary_clearMap_le tid teacherId db.teacherCampus
              have hbeq : (teacherId == tid) = false := by
                rw [beq_eq_false_iff_ne]
                exact fun hh => htid hh.symm
              simp only [hbeq, Bool.false_and, if_false, Bool.false_eq_true, Nat.add_zero]
              omega

lemma removeAlt_preserves_le_one (perm : String → String → Bool)
    (userId campusId teacherId tid : String) (db : DB)
    (hpre : countPrimary tid db.teacherCampus ≤ 1) :
    countPrimary tid ((CampusTeacherServiceAlt.removeTeacherFromCampus perm
      userId campusId teacherId db).1).teacherCampus ≤ 1 := by
  unfold CampusTeacherServiceAlt.removeTeacherFromCampus
  by_cases hperm : perm userId campusId = true
  case neg => simp [hperm, hpre]
  simp only [hperm, Bool.not_true, Bool.false_eq_true, if_false, if_neg]
  cases hpair : findTeacherCampus db teacherId campusId with
  | none => simpa [hpair] using hpre
  | some ex =>
      simp only [hpair]
      exact le_trans (countPrimary_filter_le _ _ _) hpre

lemma updateStatusAlt_preserves_le_one (perm : String → String → Bool) (now : Nat)
    (userId campusId teacherId tid : String) (s : Status) (db : DB)
    (hpre : countPrimary tid db.teacherCampus ≤ 1) :
    countPrimary tid ((CampusTeacherServiceAlt.updateTeacherCampusStatus perm now
      userId campusId teacherId s db).1).teacherCampus ≤ 1 := by
  unfold CampusTeacherServiceAlt.updateTeacherCampusStatus
  by_cases hperm : perm userId campusId = true
  case neg => simp [hperm, hpre]
  simp only [hperm, Bool.not_true, Bool.false_eq_true, if_false, if_neg]
  cases hpair : findTeacherCampus db teacherId campusId with
  | none => simpa [hpair] using hpre
  | some ex =>
      simp only [hpair]
      rw [countPrimary_statusMap]
      exact hpre

lemma setPrimaryAlt_preserves_le_one
    (userId teacherId campusId tid : String) (db : DB)
    (hwf : wfRows db.teacherCampus = true)
    (hpre : countPrimary tid db.teacherCampus ≤ 1) :
    countPrimary tid ((CampusTeacherServiceAlt.setPrimaryCampus
      userId teacherId campusId db).1).teacherCampus ≤ 1 := by
  unfold CampusTeacherServiceAlt.setPrimaryCampus
  cases hpair : findTeacherCampus db teacherId campusId with
  | none => simpa [hpair] using hpre
  | some ex =>
      simp only [hpair,
        CampusTeacherServiceAlt.setPrimarySetStep, CampusTeacherServiceAlt.setPrimaryClearStep]
      by_cases htid : tid = teacherId
      · subst htid
        rw [countPrimary_set_clear]
        exact wf_countPair_le_one _ _ _ hwf
      · rw [countPrimary_set_clear_other tid teacherId campusId htid]
        exact hpre

lemma updateStatusA_state (perm : String → String → Bool)
    (userId campusId teacherId : String) (s : Status) (db : DB) (ex : TeacherCampus)
    (hperm : perm userId campusId = true)
    (hpair : findTeacherCampus db teacherId campusId = some ex) :
    (CampusTeacherService.updateTeacherCampusStatus perm userId campusId teacherId s db).1 =
      { db with teacherCampus := db.teacherCampus.map (fun r =>
          if r.id == ex.id then { r with status := s } else r) } := by
  unfold CampusTeacherService.updateTeacherCampusStatus
  simp [hperm, hpair]

lemma findTeacherCampus_after_updateA (teacherId campusId : String) (s : Status)
    (db : DB) (ex : TeacherCampus)
    (hpair : findTeacherCampus db teacherId campusId = some ex) :
    findTeacherCampus
      { db with teacherCampus := db.teacherCampus.map (fun r =>
          if r.id == ex.id then { r with status := s } else r) } teacherId campusId =
      some { ex with status := s } := by
  have hp : db.teacherCampus.find?
      (fun r => r.teacherId == teacherId && r.campusId == campusId) = some ex := hpair
  unfold findTeacherCampus
  rw [List.find?_map]
  have hcomp : ((fun r : TeacherCampus => r.teacherId == teacherId && r.campusId == campusId) ∘
      (fun r : TeacherCampus => if r.id == ex.id then { r with status := s } else r)) =
      (fun r : TeacherCampus => r.teacherId == teacherId && r.campusId == campusId) := by
    funext a
    by_cases h : a.id = ex.id <;> simp [Function.comp, h]
  rw [hcomp, hp]
  simp

lemma updateStatusAlt_state (perm : String → String → Bool) (now : Nat)
    (userId campusId teacherId : String) (s : Status) (db : DB) (ex : TeacherCampus)
    (hperm : perm userId campusId = true)
    (hpair : findTeacherCampus db teacherId campusId = some ex) :
    (CampusTeacherServiceAlt.updateTeacherCampusStatus perm now userId campusId teacherId s
        db).1 =
      { db with teacherCampus := db.teacherCampus.map (fun r =>
          if r.teacherId == teacherId && r.campusId == campusId then
            { r with status := s, updatedAt := now } else r) } := by
  unfold CampusTeacherServiceAlt.updateTeacherCampusStatus
  simp [hperm, hpair]

lemma findTeacherCampus_after_updateAlt (teacherId campusId : String) (s : Status) (now : Nat)
    (db : DB) (ex : TeacherCampus)
    (hpair : findTeacherCampus db teacherId campusId = some ex) :
    findTeacherCampus
      { db with teacherCampus := db.teacherCampus.map (fun r =>
          if r.teacherId == teacherId && r.campusId == campusId then
            { r with status := s, updatedAt := now } else r) } teacherId campusId =
      some { ex with status := s, updatedAt := now } := by
  have hp : db.teacherCampus.find?
      (fun r => r.teacherId == teacherId && r.campusId == campusId) = some ex := hpair
  unfold findTeacherCampus
  rw [List.find?_map]
  have hcomp : ((fun r : TeacherCampus =>
      r.teacherId == teacherId && r.campusId == campusId) ∘
      (fun r : TeacherCampus =>
        if r.teacherId == teacherId && r.campusId == campusId then
          { r with status := s, updatedAt := now } else r)) =
      (fun r : TeacherCampus => r.teacherId == teacherId && r.campusId == campusId) := by
    funext a
    by_cases h1 : a.teacherId = teacherId <;> by_cases h2 : a.campusId = campusId <;>
      simp [Function.comp, h1, h2]
  rw [hcomp, hp]
  obtain ⟨_, ht, hc⟩ := findTeacherCampus_spec hpair
  simp [ht, hc]

lemma roundtrip_filter_map (F : TeacherCampus → CampusWithAssignment)
    (hFc : ∀ tc, (F tc).campusId = tc.campusId)
    (hFp : ∀ tc, (F tc).isPrimary = tc.isPrimary)
    (teacherId campusId : String) (l : List TeacherCampus) (newRow : TeacherCampus)
    (hnone : ∀ r ∈ l, ¬(r.teacherId = teacherId ∧ r.campusId = campusId))
    (hnew1 : newRow.teacherId = teacherId) (hnew2 : newRow.campusId = campusId)
    (hnew3 : newRow.isPrimary = true) (hnew4 : newRow.status = Status.ACTIVE) :
    ((List.map F (List.filter
        (fun r => r.teacherId == teacherId && (false || r.status == Status.ACTIVE))
        (l.map (fun r => if r.teacherId == teacherId && r.isPrimary then
          { r with isPrimary := false } else r) ++ [newRow]))).filter
      (fun x => x.campusId == campusId)).map (fun x => x.isPrimary) = [true] := by
  rw [List.filter_append, List.map_append, List.filter_append, List.map_append]
  have hsingle : List.filter
      (fun r : TeacherCampus => r.teacherId == teacherId && (false || r.status == Status.ACTIVE))
      [newRow] = [newRow] := by
    simp [List.filter, hnew1, hnew4]
  rw [hsingle]
  have hright : (List.filter (fun x : CampusWithAssignment => x.campusId == campusId)
      (List.map F [newRow])).map (fun x => x.isPrimary) = [true] := by
    simp [List.filter, hFc, hFp, hnew2, hnew3]
  rw [hright]
  have hleft : List.filter (fun x : CampusWithAssignment => x.campusId == campusId)
      (List.map F (List.filter
        (fun r : TeacherCampus =>
          r.teacherId == teacherId && (false || r.status == Status.ACTIVE))
        (l.map (fun r => if r.teacherId == teacherId && r.isPrimary then
          { r with isPrimary := false } else r)))) = [] := by
    rw [List.filter_eq_nil_iff]
    intro x hx
    obtain ⟨tc, htc, hmapeq⟩ := List.mem_map.mp hx
    obtain ⟨htcmem, htcpred⟩ := List.mem_filter.mp htc
    obtain ⟨r, hrmem, hcleq⟩ := List.mem_map.mp htcmem
    have hproj : tc.teacherId = r.teacherId ∧ tc.campusId = r.campusId := by
      rw [← hcleq]
      by_cases h : (r.teacherId == teacherId && r.isPrimary) = true <;> simp [h]
    simp only [Bool.and_eq_true, beq_iff_eq] at htcpred
    have hrt : r.teacherId = teacherId := hproj.1 ▸ htcpred.1
    have hrc : r.campusId ≠ campusId := fun hcc => hnone r hrmem ⟨hrt, hcc⟩
    rw [← hmapeq]
    simp only [beq_eq_false_iff_ne, ne_eq, Bool.not_eq_true]
    rw [hFc tc, hproj.2]
    simp [hrc]
  rw [hleft]
  simp

/-- C1 (amended): for the part_004 variant of CampusTeacherService, for every person,
starting from any well-formed state in which at most one of that person's assignments
(of any status) has isPrimary = true, each of assignTeacherToCampus,
removeTeacherFromCampus, updateTeacherCampusStatus and setPrimaryCampus preserves this
bound, and in particular leaves at most one assignment of that person with
status = ACTIVE and isPrimary = true. -/
theorem C1_invariant_preservation (perm : String → String → Bool) (now : Nat)
    (userId campusId teacherId tid : String) (b : Bool) (s : Status) (db : DB)
    (hwf : wfRows db.teacherCampus = true)
    (hpre : countPrimary tid db.teacherCampus ≤ 1) :
    (countPrimary tid ((CampusTeacherServiceAlt.assignTeacherToCampus perm now
        userId campusId teacherId b db).1).teacherCampus ≤ 1
      ∧ countActivePrimary tid ((CampusTeacherServiceAlt.assignTeacherToCampus perm now
        userId campusId teacherId b db).1).teacherCampus ≤ 1)
    ∧ (countPrimary tid ((CampusTeacherServiceAlt.removeTeacherFromCampus perm
        userId campusId teacherId db).1).teacherCampus ≤ 1
      ∧ countActivePrimary tid ((CampusTeacherServiceAlt.removeTeacherFromCampus perm
        userId campusId teacherId db).1).teacherCampus ≤ 1)
    ∧ (countPrimary tid ((CampusTeacherServiceAlt.updateTeacherCampusStatus perm now
        userId campusId teacherId s db).1).teacherCampus ≤ 1
      ∧ countActivePrimary tid ((CampusTeacherServiceAlt.updateTeacherCampusStatus perm now
        userId campusId teacherId s db).1).teacherCampus ≤ 1)
    ∧ (countPrimary tid ((CampusTeacherServiceAlt.setPrimaryCampus
        userId teacherId campusId db).1).teacherCampus ≤ 1
      ∧ countActivePrimary tid ((CampusTeacherServiceAlt.setPrimaryCampus
        userId teacherId campusId db).1).teacherCampus ≤ 1) := by
  have h1 := assignAlt_preserves_le_one perm now userId campusId teacherId tid b db hpre
  have h2 := removeAlt_preserves_le_one perm userId campusId teacherId tid db hpre
  have h3 := updateStatusAlt_preserves_le_one perm now userId campusId teacherId tid s db hpre
  have h4 := setPrimaryAlt_preserves_le_one userId teacherId campusId tid db hwf hpre
  exact ⟨⟨h1, le_trans (countActivePrimary_le_countPrimary _ _) h1⟩,
         ⟨h2, le_trans (countActivePrimary_le_countPrimary _ _) h2⟩,
         ⟨h3, le_trans (countActivePrimary_le_countPrimary _ _) h3⟩,
         ⟨h4, le_trans (countActivePrimary_le_countPrimary _ _) h4⟩⟩

/-- C1 witness: the preservation theorem applied to a concrete state in which t1 holds
an ACTIVE primary on c1 and a non-primary ACTIVE row on c2. -/
theorem C1_invariant_witness :
    (wfRows dbTwoCampuses.teacherCampus = true
      ∧ countPrimary "t1" dbTwoCampuses.teacherCampus ≤ 1)
    ∧ countPrimary "t1" ((CampusTeacherServiceAlt.setPrimaryCampus
        "u1" "t1" "c2" dbTwoCampuses).1).teacherCampus ≤ 1 :=
  ⟨⟨by decide, by decide⟩,
   (C1_invariant_preservation permAll 5 "u1" "c2" "t1" "t1" true Status.INACTIVE
      dbTwoCampuses (by decide) (by decide)).2.2.2.1⟩

/-- C1 counterexample, refuting the claim as stated twice over: (1) the variant at
src/src/server/services/CampusTeacherService.ts: assignTeacherToCampus with
isPrimary = true does not clear the existing primary, turning a state with one
ACTIVE primary into one with two; (2) even in the part_004 variant,
updateTeacherCampusStatus applied to an INACTIVE row that still carries the
primary flag (a state the claim's precondition admits, since it only bounds
ACTIVE primaries) re-activates it and yields two ACTIVE primaries. -/
theorem C1_invariant_counterexample :
    (countActivePrimary "t1" dbOnePrimary.teacherCampus = 1
      ∧ countActivePrimary "t1" ((CampusTeacherService.assignTeacherToCampus permAll 5
          "admin" "c2" "t1" true dbOnePrimary).1).teacherCampus = 2)
    ∧ (countActivePrimary "t1" dbActiveInactivePrimaries.teacherCampus = 1
      ∧ countActivePrimary "t1" ((CampusTeacherServiceAlt.updateTeacherCampusStatus permAll 7
          "admin" "c2" "t1" Status.ACTIVE dbActiveInactivePrimaries).1).teacherCampus = 2) := by
  refine ⟨⟨by decide, by decide⟩, ⟨by decide, by decide⟩⟩

/-- C2: at the failing input (t1 primary on c1, non-primary on c2; setPrimaryCampus to
c2), the part_004 setPrimaryCampus factors into its two sequential storage calls, and
the state after the first call alone - reachable by a reader or left behind if the
second call fails, since no transaction wraps them - has the old primary cleared and
the new one not yet set (zero ACTIVE primaries), which the claim says is never
observable. The code contradicts the spec's all-or-nothing requirement. -/
theorem C2_setPrimary_not_atomic :
    countActivePrimary "t1" dbTwoCampuses.teacherCampus = 1
    ∧ (CampusTeacherServiceAlt.setPrimaryCampus "admin" "t1" "c2" dbTwoCampuses).1 =
        CampusTeacherServiceAlt.setPrimarySetStep "t1" "c2"
          (CampusTeacherServiceAlt.setPrimaryClearStep "t1" dbTwoCampuses)
    ∧ countActivePrimary "t1"
        (CampusTeacherServiceAlt.setPrimaryClearStep "t1" dbTwoCampuses).teacherCampus = 0
    ∧ (findTeacherCampus (CampusTeacherServiceAlt.setPrimaryClearStep "t1" dbTwoCampuses)
        "t1" "c1").map TeacherCampus.isPrimary = some false
    ∧ (findTeacherCampus (CampusTeacherServiceAlt.setPrimaryClearStep "t1" dbTwoCampuses)
        "t1" "c2").map TeacherCampus.isPrimary = some false := by
  refine ⟨by decide, by decide, by decide, by decide, by decide⟩

/-- C3 counterexample: with t1 holding an INACTIVE assignment to c1 still flagged
primary, part_004 assignTeacherToCampus(c2, isPrimary = true) clears the primary flag
of that INACTIVE row, although the claim says clearing touches ACTIVE rows only. -/
theorem C3_assign_counterexample :
    (findTeacherCampus dbInactivePrimary "t1" "c1").map
        (fun r => (r.status, r.isPrimary)) = some (Status.INACTIVE, true)
    ∧ (findTeacherCampus ((CampusTeacherServiceAlt.assignTeacherToCampus permAll 5
        "admin" "c2" "t1" true dbInactivePrimary).1) "t1" "c1").map
        (fun r => (r.status, r.isPrimary)) = some (Status.INACTIVE, false) := by
  refine ⟨by decide, by decide⟩

/-- C3 (amended): for the part_004 variant, under the claim's preconditions (capability
held, teacher and campus exist, no assignment for the pair),
assignTeacherToCampus(..., isPrimary = true) clears isPrimary on every other
assignment of the person that currently has it - regardless of status, not only
ACTIVE ones - and inserts a new assignment with status = ACTIVE and isPrimary = true,
leaving exactly one primary; rows without the primary flag and rows of other persons
are unchanged, and the Scenario A run (assign c1 primary, then c2 primary, then list)
shows c1 non-primary and c2 primary. -/
theorem C3_assign_clears_then_inserts (perm : String → String → Bool) (now : Nat)
    (userId campusId teacherId : String) (db : DB) (p : TeacherProfile) (camp : Campus)
    (hperm : perm userId campusId = true)
    (hfp : findTeacherProfile db teacherId = some p)
    (hfc : findCampus db campusId = some camp)
    (hpair : findTeacherCampus db teacherId campusId = none) :
    ((CampusTeacherServiceAlt.assignTeacherToCampus perm now userId campusId teacherId true db).2 =
        Except.ok { id := db.nextId, teacherId := teacherId, campusId := campusId,
                    isPrimary := true, status := Status.ACTIVE,
                    joinedAt := now, createdAt := now, updatedAt := now })
    ∧ countPrimary teacherId ((CampusTeacherServiceAlt.assignTeacherToCampus perm now
        userId campusId teacherId true db).1).teacherCampus = 1
    ∧ countActivePrimary teacherId ((CampusTeacherServiceAlt.assignTeacherToCampus perm now
        userId campusId teacherId true db).1).teacherCampus = 1
    ∧ (∀ r ∈ db.teacherCampus, r.teacherId = teacherId → r.isPrimary = true →
        { r with isPrimary := false } ∈ ((CampusTeacherServiceAlt.assignTeacherToCampus perm now
          userId campusId teacherId true db).1).teacherCampus)
    ∧ (∀ r ∈ db.teacherCampus, r.teacherId = teacherId → r.isPrimary = false →
        r ∈ ((CampusTeacherServiceAlt.assignTeacherToCampus perm now
          userId campusId teacherId true db).1).teacherCampus)
    ∧ (∀ r ∈ db.teacherCampus, r.teacherId ≠ teacherId →
        r ∈ ((CampusTeacherServiceAlt.assignTeacherToCampus perm now
          userId campusId teacherId true db).1).teacherCampus)
    ∧ (((CampusTeacherServiceAlt.getCampusesForTeacher "u1" "t1" false
        ((CampusTeacherServiceAlt.assignTeacherToCampus permAll 6 "admin" "c2" "t1" true
          ((CampusTeacherServiceAlt.assignTeacherToCampus permAll 5 "admin" "c1" "t1" true
            dbNoAssignments).1)).1)).toOption).map
          (fun l => l.map (fun x => (x.campusId, x.isPrimary))) =
        some [("c1", false), ("c2", true)]) := by
  have hscn : (((CampusTeacherServiceAlt.getCampusesForTeacher "u1" "t1" false
      ((CampusTeacherServiceAlt.assignTeacherToCampus permAll 6 "admin" "c2" "t1" true
        ((CampusTeacherServiceAlt.assignTeacherToCampus permAll 5 "admin" "c1" "t1" true
          dbNoAssignments).1)).1)).toOption).map
        (fun l => l.map (fun x => (x.campusId, x.isPrimary))) =
      some [("c1", false), ("c2", true)]) := by decide
  refine ⟨?_, ?_, ?_, ?_, ?_, ?_, hscn⟩
  · unfold CampusTeacherServiceAlt.assignTeacherToCampus
    simp only [hperm, Bool.not_true, Bool.false_eq_true, if_false, if_neg, hfp, hfc, hpair,
      if_true]
  · unfold CampusTeacherServiceAlt.assignTeacherToCampus
    simp only [hperm, Bool.not_true, Bool.false_eq_true, if_false, if_neg, hfp, hfc, hpair,
      if_true]
    rw [countPrimary_append, countPrimary_clearMap_self, countPrimary_singleton]
    simp
  · unfold CampusTeacherServiceAlt.assignTeacherToCampus
    simp only [hperm, Bool.not_true, Bool.false_eq_true, if_false, if_neg, hfp, hfc, hpair,
      if_true]
    rw [countActivePrimary_append, countActivePrimary_singleton]
    have h0 : countActivePrimary teacherId
        (db.teacherCampus.map (fun r =>
          if r.teacherId == teacherId && r.isPrimary then { r with isPrimary := false } else r)) = 0 := by
      have := countActivePrimary_le_countPrimary teacherId
        (db.teacherCampus.map (fun r =>
          if r.teacherId == teacherId && r.isPrimary then { r with isPrimary := false } else r))
      rw [countPrimary_clearMap_self] at this
      omega
    rw [h0]
    simp
  · intro r hr h1 h2
    unfold CampusTeacherServiceAlt.assignTeacherToCampus
    simp only [hperm, Bool.not_true, Bool.false_eq_true, if_false, if_neg, hfp, hfc, hpair,
      if_true]
    apply List.mem_append_left
    have heq : (fun r : TeacherCampus =>
        if r.teacherId == teacherId && r.isPrimary then { r with isPrimary := false } else r) r =
        { r with isPrimary := false } := by simp [h1, h2]
    rw [← heq]
    exact List.mem_map_of_mem _ hr
  · intro r hr h1 h2
    unfold CampusTeacherServiceAlt.assignTeacherToCampus
    simp only [hperm, Bool.not_true, Bool.false_eq_true, if_false, if_neg, hfp, hfc, hpair,
      if_true]
    apply List.mem_append_left
    have heq : (fun r : TeacherCampus =>
        if r.teacherId == teacherId && r.isPrimary then { r with isPrimary := false } else r) r = r := by
      simp [h1, h2]
    rw [← heq]
    exact List.mem_map_of_mem _ hr
  · intro r hr h1
    unfold CampusTeacherServiceAlt.assignTeacherToCampus
    simp only [hperm, Bool.not_true, Bool.false_eq_true, if_false, if_neg, hfp, hfc, hpair,
      if_true]
    apply List.mem_append_left
    have heq : (fun r : TeacherCampus =>
        if r.teacherId == teacherId && r.isPrimary then { r with isPrimary := false } else r) r = r := by
      simp [h1]
    rw [← heq]
    exact List.mem_map_of_mem _ hr

/-- C3 witness: the amended theorem applied to the concrete state in which t1 already
holds an ACTIVE primary on c1 and is then assigned c2 as primary. -/
theorem C3_assign_witness :
    (permAll "admin" "c2" = true
      ∧ findTeacherProfile dbOnePrimary "t1" = some profT1
      ∧ findCampus dbOnePrimary "c2" = some { id := "c2", name := "Campus 2" }
      ∧ findTeacherCampus dbOnePrimary "t1" "c2" = none)
    ∧ countActivePrimary "t1" ((CampusTeacherServiceAlt.assignTeacherToCampus permAll 5
        "admin" "c2" "t1" true dbOnePrimary).1).teacherCampus = 1 :=
  ⟨⟨by decide, by decide, by decide, by decide⟩,
   (C3_assign_clears_then_inserts permAll 5 "admin" "c2" "t1" dbOnePrimary profT1
      { id := "c2", name := "Campus 2" } (by decide) (by decide) (by decide) (by decide)).2.2.1⟩

/-- C4 counterexample: in the variant at src/src/server/services/CampusTeacherService.ts,
a second assign for an existing (t1, c1) assignment does not fail with Conflict: it
succeeds and updates the row in place (isPrimary true, status ACTIVE), so the
existing assignment is not left unchanged. -/
theorem C4_conflict_counterexample :
    (findTeacherCampus dbNonPrimary "t1" "c1").map
        (fun r => (r.isPrimary, r.status)) = some (false, Status.ACTIVE)
    ∧ (((CampusTeacherService.assignTeacherToCampus permAll 5 "admin" "c1" "t1" true
        dbNonPrimary).2).toOption).map TeacherCampus.isPrimary = some true
    ∧ (findTeacherCampus ((CampusTeacherService.assignTeacherToCampus permAll 5 "admin"
        "c1" "t1" true dbNonPrimary).1) "t1" "c1").map
        (fun r => (r.isPrimary, r.status)) = some (true, Status.ACTIVE) := by
  refine ⟨by decide, by decide, by decide⟩

/-- C4 (amended): when an assignment already exists for the pair and the actor holds the
capability, the part_004 variant's assignTeacherToCampus fails with CONFLICT and
leaves the entire store unchanged, while the src/src variant instead succeeds,
overwriting the existing row's isPrimary with the argument and forcing status ACTIVE,
leaving all other rows unchanged. -/
theorem C4_conflict_behavior (perm : String → String → Bool) (now : Nat)
    (userId campusId teacherId : String) (b : Bool) (db : DB)
    (p : TeacherProfile) (camp : Campus) (ex : TeacherCampus)
    (hperm : perm userId campusId = true)
    (hfp : findTeacherProfile db teacherId = some p)
    (hfc : findCampus db campusId = some camp)
    (hpair : findTeacherCampus db teacherId campusId = some ex)
    (hwf : wfRows db.teacherCampus = true) :
    (CampusTeacherServiceAlt.assignTeacherToCampus perm now userId campusId teacherId b db =
        (db, Except.error TRPCCode.CONFLICT))
    ∧ ((CampusTeacherService.assignTeacherToCampus perm now userId campusId teacherId b db).2 =
        Except.ok { ex with isPrimary := b, status := Status.ACTIVE })
    ∧ ({ ex with isPrimary := b, status := Status.ACTIVE } ∈
        ((CampusTeacherService.assignTeacherToCampus perm now userId campusId teacherId b
          db).1).teacherCampus)
    ∧ (∀ r ∈ db.teacherCampus, ¬(r.teacherId = teacherId ∧ r.campusId = campusId) →
        r ∈ ((CampusTeacherService.assignTeacherToCampus perm now userId campusId teacherId b
          db).1).teacherCampus) := by
  refine ⟨?_, ?_, ?_, ?_⟩
  · unfold CampusTeacherServiceAlt.assignTeacherToCampus
    simp [hperm, hfp, hfc, hpair]
  · unfold CampusTeacherService.assignTeacherToCampus
    simp [hperm, hpair]
  · unfold CampusTeacherService.assignTeacherToCampus
    simp only [hperm, Bool.not_true, Bool.false_eq_true, if_false, if_neg, hpair]
    have heq : (fun r : TeacherCampus =>
        if r.id == ex.id then { r with isPrimary := b, status := Status.ACTIVE } else r) ex =
        { ex with isPrimary := b, status := Status.ACTIVE } := by simp
    rw [← heq]
    exact List.mem_map_of_mem _ (findTeacherCampus_spec hpair).1
  · intro r hr hne
    unfold CampusTeacherService.assignTeacherToCampus
    simp only [hperm, Bool.not_true, Bool.false_eq_true, if_false, if_neg, hpair]
    have hid := ne_id_of_ne_pair hwf hpair hr hne
    have heq : (fun r : TeacherCampus =>
        if r.id == ex.id then { r with isPrimary := b, status := Status.ACTIVE } else r) r = r := by
      simp [hid]
    rw [← heq]
    exact List.mem_map_of_mem _ hr

/-- C4 witness: the theorem applied to the concrete state in which t1 already has a
non-primary ACTIVE assignment to c1. -/
theorem C4_conflict_witness :
    (permAll "admin" "c1" = true
      ∧ findTeacherProfile dbNonPrimary "t1" = some profT1
      ∧ findCampus dbNonPrimary "c1" = some { id := "c1", name := "Campus 1" }
      ∧ findTeacherCampus dbNonPrimary "t1" "c1" = some (mkRow 0 "t1" "c1" false Status.ACTIVE)
      ∧ wfRows dbNonPrimary.teacherCampus = true)
    ∧ CampusTeacherServiceAlt.assignTeacherToCampus permAll 5 "admin" "c1" "t1" true dbNonPrimary =
        (dbNonPrimary, Except.error TRPCCode.CONFLICT) :=
  ⟨⟨by decide, by decide, by decide, by decide, by decide⟩,
   (C4_conflict_behavior permAll 5 "admin" "c1" "t1" true dbNonPrimary profT1
      { id := "c1", name := "Campus 1" } (mkRow 0 "t1" "c1" false Status.ACTIVE)
      (by decide) (by decide) (by decide) (by decide) (by decide)).1⟩

/-- C5 counterexample: (1) the part_004 setPrimaryCampus performs no permission check,
so a call by an actor who is not the person and holds no capability succeeds instead
of failing with Forbidden; (2) the src/src setPrimaryCampus does not require the
assignment to be ACTIVE: a self-call on an INACTIVE assignment succeeds where the
claim demands NotFound. -/
theorem C5_setPrimary_counterexample :
    ("intruder" ≠ profT1.userId)
    ∧ (permNone "intruder" "c1" = false)
    ∧ ((((CampusTeacherServiceAlt.setPrimaryCampus "intruder" "t1" "c1"
        dbOnePrimary).2).toOption).map TeacherCampus.isPrimary = some true)
    ∧ ((findTeacherCampus dbInactiveAssignment "t1" "c1").map TeacherCampus.status =
        some Status.INACTIVE)
    ∧ ((((CampusTeacherService.setPrimaryCampus permNone "u1" "t1" "c1"
        dbInactiveAssignment).2).toOption).map TeacherCampus.isPrimary = some true) := by
  refine ⟨by decide, by decide, by decide, by decide, by decide⟩

/-- C5 (amended): for the src/src variant, given the teacher profile exists: an actor
who is neither the person themself nor a capability holder gets FORBIDDEN with no
state change; an authorized (self) call for a pair with no assignment gets NOT_FOUND
with no state change; a self-call by the person without any capability on an existing
assignment of any status (ACTIVE not required) succeeds. The part_004 variant checks
no permission at all: any actor's call succeeds whenever the assignment exists. -/
theorem C5_setPrimary_guards (perm : String → String → Bool)
    (userX campusId campusId2 teacherId : String) (db : DB)
    (p : TeacherProfile) (ex : TeacherCampus)
    (hfp : findTeacherProfile db teacherId = some p)
    (hpair : findTeacherCampus db teacherId campusId = some ex)
    (hpair2 : findTeacherCampus db teacherId campusId2 = none)
    (hnotself : userX ≠ p.userId)
    (hnoperm : perm userX campusId = false) :
    (CampusTeacherService.setPrimaryCampus perm userX teacherId campusId db =
        (db, Except.error TRPCCode.FORBIDDEN))
    ∧ (CampusTeacherService.setPrimaryCampus perm p.userId teacherId campusId2 db =
        (db, Except.error TRPCCode.NOT_FOUND))
    ∧ ((CampusTeacherService.setPrimaryCampus perm p.userId teacherId campusId db).2 =
        Except.ok { ex with isPrimary := true })
    ∧ ((CampusTeacherServiceAlt.setPrimaryCampus userX teacherId campusId db).2 =
        Except.ok { ex with isPrimary := true }) := by
  have hbeq : (userX == p.userId) = false := by
    rw [beq_eq_false_iff_ne]; exact hnotself
  refine ⟨?_, ?_, ?_, ?_⟩
  · unfold CampusTeacherService.setPrimaryCampus
    simp [hfp, hbeq, hnoperm]
  · unfold CampusTeacherService.setPrimaryCampus
    simp [hfp, hpair2]
  · unfold CampusTeacherService.setPrimaryCampus
    simp [hfp, hpair]
  · unfold CampusTeacherServiceAlt.setPrimaryCampus
    simp [hpair]

/-- C5 witness: the theorem applied to the concrete state with t1 primary on c1, an
unauthorized actor, and the missing campus c9. -/
theorem C5_setPrimary_witness :
    (findTeacherProfile dbOnePrimary "t1" = some profT1
      ∧ findTeacherCampus dbOnePrimary "t1" "c1" = some (mkRow 0 "t1" "c1" true Status.ACTIVE)
      ∧ findTeacherCampus dbOnePrimary "t1" "c9" = none
      ∧ "intruder" ≠ profT1.userId
      ∧ permNone "intruder" "c1" = false)
    ∧ CampusTeacherService.setPrimaryCampus permNone "intruder" "t1" "c1" dbOnePrimary =
        (dbOnePrimary, Except.error TRPCCode.FORBIDDEN) :=
  ⟨⟨by decide, by decide, by decide, by decide, by decide⟩,
   (C5_setPrimary_guards permNone "intruder" "c1" "c9" "t1" dbOnePrimary profT1
      (mkRow 0 "t1" "c1" true Status.ACTIVE)
      (by decide) (by decide) (by decide) (by decide) (by decide)).1⟩

/-- C6 counterexample: the part_004 updateTeacherCampusStatus does not set only the
status field - it also overwrites the row's updatedAt timestamp (0 becomes 7 at the
concrete input). -/
theorem C6_updateStatus_counterexample :
    (findTeacherCampus dbOnePrimary "t1" "c1").map TeacherCampus.updatedAt = some 0
    ∧ (findTeacherCampus ((CampusTeacherServiceAlt.updateTeacherCampusStatus permAll 7
        "admin" "c1" "t1" Status.INACTIVE dbOnePrimary).1) "t1" "c1").map
        (fun r => (r.status, r.updatedAt)) = some (Status.INACTIVE, 7) := by
  refine ⟨by decide, by decide⟩

/-- C6 (amended): for an existing assignment and an authorized actor, both variants of
updateTeacherCampusStatus set the target row's status (the part_004 variant also
refreshing its updatedAt timestamp), leave the isPrimary flag of every row - the
target included, even when the new status is not ACTIVE and the row was primary -
unchanged, leave the identity and timestamp columns of every row unchanged (updatedAt
column excepted in the part_004 variant), leave every row of any other pair
untouched, and modify no other table. -/
theorem C6_updateStatus_frame (perm : String → String → Bool) (now : Nat)
    (userId campusId teacherId : String) (s : Status) (db : DB) (ex : TeacherCampus)
    (hperm : perm userId campusId = true)
    (hpair : findTeacherCampus db teacherId campusId = some ex)
    (hwf : wfRows db.teacherCampus = true) :
    (((CampusTeacherService.updateTeacherCampusStatus perm userId campusId teacherId s
        db).1).teacherCampus.map TeacherCampus.isPrimary =
      db.teacherCampus.map TeacherCampus.isPrimary)
    ∧ (((CampusTeacherServiceAlt.updateTeacherCampusStatus perm now userId campusId teacherId s
        db).1).teacherCampus.map TeacherCampus.isPrimary =
      db.teacherCampus.map TeacherCampus.isPrimary)
    ∧ (((CampusTeacherService.updateTeacherCampusStatus perm userId campusId teacherId s
        db).1).teacherCampus.map
          (fun r => (r.id, r.teacherId, r.campusId, r.joinedAt, r.createdAt, r.updatedAt)) =
      db.teacherCampus.map
          (fun r => (r.id, r.teacherId, r.campusId, r.joinedAt, r.createdAt, r.updatedAt)))
    ∧ (((CampusTeacherServiceAlt.updateTeacherCampusStatus perm now userId campusId teacherId s
        db).1).teacherCampus.map
          (fun r => (r.id, r.teacherId, r.campusId, r.joinedAt, r.createdAt)) =
      db.teacherCampus.map
          (fun r => (r.id, r.teacherId, r.campusId, r.joinedAt, r.createdAt)))
    ∧ ({ ex with status := s } ∈
        ((CampusTeacherService.updateTeacherCampusStatus perm userId campusId teacherId s
          db).1).teacherCampus)
    ∧ ({ ex with status := s, updatedAt := now } ∈
        ((CampusTeacherServiceAlt.updateTeacherCampusStatus perm now userId campusId teacherId s
          db).1).teacherCampus)
    ∧ (∀ r ∈ db.teacherCampus, ¬(r.teacherId = teacherId ∧ r.campusId = campusId) →
        r ∈ ((CampusTeacherService.updateTeacherCampusStatus perm userId campusId teacherId s
          db).1).teacherCampus
        ∧ r ∈ ((CampusTeacherServiceAlt.updateTeacherCampusStatus perm now userId campusId
          teacherId s db).1).teacherCampus)
    ∧ (((CampusTeacherService.updateTeacherCampusStatus perm userId campusId teacherId s
        db).1).teacherProfiles = db.teacherProfiles)
    ∧ (((CampusTeacherServiceAlt.updateTeacherCampusStatus perm now userId campusId teacherId s
        db).1).teacherProfiles = db.teacherProfiles) := by
  refine ⟨?_, ?_, ?_, ?_, ?_, ?_, ?_, ?_, ?_⟩
  · unfold CampusTeacherService.updateTeacherCampusStatus
    simp only [hperm, Bool.not_true, Bool.false_eq_true, if_false, if_neg, hpair]
    rw [List.map_map]
    apply List.map_congr_left
    intro a _
    by_cases h : a.id = ex.id <;> simp [Function.comp, h]
  · unfold CampusTeacherServiceAlt.updateTeacherCampusStatus
    simp only [hperm, Bool.not_true, Bool.false_eq_true, if_false, if_neg, hpair]
    rw [List.map_map]
    apply List.map_congr_left
    intro a _
    by_cases h1 : a.teacherId = teacherId <;> by_cases h2 : a.campusId = campusId <;>
      simp [Function.comp, h1, h2]
  · unfold CampusTeacherService.updateTeacherCampusStatus
    simp only [hperm, Bool.not_true, Bool.false_eq_true, if_false, if_neg, hpair]
    rw [List.map_map]
    apply List.map_congr_left
    intro a _
    by_cases h : a.id = ex.id <;> simp [Function.comp, h]
  · unfold CampusTeacherServiceAlt.updateTeacherCampusStatus
    simp only [hperm, Bool.not_true, Bool.false_eq_true, if_false, if_neg, hpair]
    rw [List.map_map]
    apply List.map_congr_left
    intro a _
    by_cases h1 : a.teacherId = teacherId <;> by_cases h2 : a.campusId = campusId <;>
      simp [Function.comp, h1, h2]
  · unfold CampusTeacherService.updateTeacherCampusStatus
    simp only [hperm, Bool.not_true, Bool.false_eq_true, if_false, if_neg, hpair]
    have heq : (fun r : TeacherCampus =>
        if r.id == ex.id then { r with status := s } else r) ex = { ex with status := s } := by
      simp
    rw [← heq]
    exact List.mem_map_of_mem _ (findTeacherCampus_spec hpair).1
  · unfold CampusTeacherServiceAlt.updateTeacherCampusStatus
    simp only [hperm, Bool.not_true, Bool.false_eq_true, if_false, if_neg, hpair]
    obtain ⟨hmem, ht, hc⟩ := findTeacherCampus_spec hpair
    have heq : (fun r : TeacherCampus =>
        if r.teacherId == teacherId && r.campusId == campusId then
          { r with status := s, updatedAt := now } else r) ex =
        { ex with status := s, updatedAt := now } := by
      simp [ht, hc]
    rw [← heq]
    exact List.mem_map_of_mem _ hmem
  · intro r hr hne
    constructor
    · unfold CampusTeacherService.updateTeacherCampusStatus
      simp only [hperm, Bool.not_true, Bool.false_eq_true, if_false, if_neg, hpair]
      have hid := ne_id_of_ne_pair hwf hpair hr hne
      have heq : (fun r : TeacherCampus =>
          if r.id == ex.id then { r with status := s } else r) r = r := by simp [hid]
      rw [← heq]
      exact List.mem_map_of_mem _ hr
    · unfold CampusTeacherServiceAlt.updateTeacherCampusStatus
      simp only [hperm, Bool.not_true, Bool.false_eq_true, if_false, if_neg, hpair]
      have heq : (fun r : TeacherCampus =>
          if r.teacherId == teacherId && r.campusId == campusId then
            { r with status := s, updatedAt := now } else r) r = r := by
        simp [pair_pred_false hne]
      rw [← heq]
      exact List.mem_map_of_mem _ hr
  · unfold CampusTeacherService.updateTeacherCampusStatus
    simp [hperm, hpair]
  · unfold CampusTeacherServiceAlt.updateTeacherCampusStatus
    simp [hperm, hpair]

/-- C6 witness: the theorem applied to the concrete state in which the primary ACTIVE
assignment of t1 to c1 is set to INACTIVE. -/
theorem C6_updateStatus_witness :
    (permAll "admin" "c1" = true
      ∧ findTeacherCampus dbOnePrimary "t1" "c1" = some (mkRow 0 "t1" "c1" true Status.ACTIVE)
      ∧ wfRows dbOnePrimary.teacherCampus = true)
    ∧ ((CampusTeacherService.updateTeacherCampusStatus permAll "admin" "c1" "t1"
        Status.INACTIVE dbOnePrimary).1).teacherCampus.map TeacherCampus.isPrimary =
      dbOnePrimary.teacherCampus.map TeacherCampus.isPrimary :=
  ⟨⟨by decide, by decide, by decide⟩,
   (C6_updateStatus_frame permAll 7 "admin" "c1" "t1" Status.INACTIVE dbOnePrimary
      (mkRow 0 "t1" "c1" true Status.ACTIVE) (by decide) (by decide) (by decide)).1⟩

/-- C7: for an existing assignment and a capability-holding actor, both variants of
removeTeacherFromCampus delete exactly one row - the one for the pair - and change
nothing else: every row of any other pair survives unchanged, every surviving row
already existed (so no row is modified and none is promoted to primary), no row for
the pair remains, the other tables are untouched, and in the concrete Scenario D run
(t1 primary on c1, non-primary on c2; remove c1; list) no primary assignment is
reported. -/
theorem C7_remove_frame (perm : String → String → Bool)
    (userId campusId teacherId : String) (db : DB) (ex : TeacherCampus)
    (hperm : perm userId campusId = true)
    (hpair : findTeacherCampus db teacherId campusId = some ex)
    (hwf : wfRows db.teacherCampus = true) :
    (((CampusTeacherService.removeTeacherFromCampus perm userId campusId teacherId
        db).1).teacherCampus.length + 1 = db.teacherCampus.length)
    ∧ (((CampusTeacherServiceAlt.removeTeacherFromCampus perm userId campusId teacherId
        db).1).teacherCampus.length + 1 = db.teacherCampus.length)
    ∧ (∀ r ∈ db.teacherCampus, ¬(r.teacherId = teacherId ∧ r.campusId = campusId) →
        r ∈ ((CampusTeacherService.removeTeacherFromCampus perm userId campusId teacherId
          db).1).teacherCampus
        ∧ r ∈ ((CampusTeacherServiceAlt.removeTeacherFromCampus perm userId campusId teacherId
          db).1).teacherCampus)
    ∧ (∀ r ∈ ((CampusTeacherService.removeTeacherFromCampus perm userId campusId teacherId
        db).1).teacherCampus, r ∈ db.teacherCampus)
    ∧ (∀ r ∈ ((CampusTeacherServiceAlt.removeTeacherFromCampus perm userId campusId teacherId
        db).1).teacherCampus, r ∈ db.teacherCampus)
    ∧ (∀ r ∈ ((CampusTeacherService.removeTeacherFromCampus perm userId campusId teacherId
        db).1).teacherCampus, ¬(r.teacherId = teacherId ∧ r.campusId = campusId))
    ∧ (∀ r ∈ ((CampusTeacherServiceAlt.removeTeacherFromCampus perm userId campusId teacherId
        db).1).teacherCampus, ¬(r.teacherId = teacherId ∧ r.campusId = campusId))
    ∧ (((CampusTeacherService.removeTeacherFromCampus perm userId campusId teacherId
        db).1).teacherProfiles = db.teacherProfiles)
    ∧ (((CampusTeacherServiceAlt.removeTeacherFromCampus perm userId campusId teacherId
        db).1).teacherProfiles = db.teacherProfiles)
    ∧ (((CampusTeacherServiceAlt.getCampusesForTeacher "u1" "t1" false
        ((CampusTeacherServiceAlt.removeTeacherFromCampus permAll "admin" "c1" "t1"
          dbTwoCampuses).1)).toOption).map (fun l => l.map CampusWithAssignment.isPrimary) =
        some [false]) := by
  obtain ⟨hmem, ht, hc⟩ := findTeacherCampus_spec hpair
  refine ⟨?_, ?_, ?_, ?_, ?_, ?_, ?_, ?_, ?_, by decide⟩
  · unfold CampusTeacherService.removeTeacherFromCampus
    simp only [hperm, Bool.not_true, Bool.false_eq_true, if_false, if_neg, hpair]
    have hfe : db.teacherCampus.filter (fun r => r.id != ex.id) =
        db.teacherCampus.filter (fun r => !(r.id == ex.id)) := by
      apply List.filter_congr
      intro a _
      simp [bne]
    rw [hfe]
    have := length_filter_not_add_countP (fun r => r.id == ex.id) db.teacherCampus
    have h1 := countId_eq_one hwf hpair
    omega
  · unfold CampusTeacherServiceAlt.removeTeacherFromCampus
    simp only [hperm, Bool.not_true, Bool.false_eq_true, if_false, if_neg, hpair]
    have := length_filter_not_add_countP
      (fun r => r.teacherId == teacherId && r.campusId == campusId) db.teacherCampus
    have h1 := countPair_eq_one hwf hpair
    omega
  · intro r hr hne
    constructor
    · unfold CampusTeacherService.removeTeacherFromCampus
      simp only [hperm, Bool.not_true, Bool.false_eq_true, if_false, if_neg, hpair]
      refine List.mem_filter.mpr ⟨hr, ?_⟩
      have := ne_id_of_ne_pair hwf hpair hr hne
      simpa [bne] using this
    · unfold CampusTeacherServiceAlt.removeTeacherFromCampus
      simp only [hperm, Bool.not_true, Bool.false_eq_true, if_false, if_neg, hpair]
      refine List.mem_filter.mpr ⟨hr, ?_⟩
      simp [pair_pred_false hne]
  · intro r hr
    unfold CampusTeacherService.removeTeacherFromCampus at hr
    simp only [hperm, Bool.not_true, Bool.false_eq_true, if_false, if_neg, hpair] at hr
    exact (List.mem_filter.mp hr).1
  · intro r hr
    unfold CampusTeacherServiceAlt.removeTeacherFromCampus at hr
    simp only [hperm, Bool.not_true, Bool.false_eq_true, if_false, if_neg, hpair] at hr
    exact (List.mem_filter.mp hr).1
  · intro r hr hcon
    unfold CampusTeacherService.removeTeacherFromCampus at hr
    simp only [hperm, Bool.not_true, Bool.false_eq_true, if_false, if_neg, hpair] at hr
    obtain ⟨hrmem, hpred⟩ := List.mem_filter.mp hr
    have : r = ex := wf_pair_inj hwf r hrmem ex hmem (hcon.1.trans ht.symm)
      (hcon.2.trans hc.symm)
    rw [this] at hpred
    simp [bne] at hpred
  · intro r hr hcon
    unfold CampusTeacherServiceAlt.removeTeacherFromCampus at hr
    simp only [hperm, Bool.not_true, Bool.false_eq_true, if_false, if_neg, hpair] at hr
    obtain ⟨hrmem, hpred⟩ := List.mem_filter.mp hr
    simp [hcon.1, hcon.2] at hpred
  · unfold CampusTeacherService.removeTeacherFromCampus
    simp [hperm, hpair]
  · unfold CampusTeacherServiceAlt.removeTeacherFromCampus
    simp [hperm, hpair]

/-- C7 witness: the theorem applied to the concrete state with t1 primary on c1 and
non-primary on c2, removing c1. -/
theorem C7_remove_witness :
    (permAll "admin" "c1" = true
      ∧ findTeacherCampus dbTwoCampuses "t1" "c1" = some (mkRow 0 "t1" "c1" true Status.ACTIVE)
      ∧ wfRows dbTwoCampuses.teacherCampus = true)
    ∧ ((CampusTeacherService.removeTeacherFromCampus permAll "admin" "c1" "t1"
        dbTwoCampuses).1).teacherCampus.length + 1 = dbTwoCampuses.teacherCampus.length :=
  ⟨⟨by decide, by decide, by decide⟩,
   (C7_remove_frame permAll "admin" "c1" "t1" dbTwoCampuses
      (mkRow 0 "t1" "c1" true Status.ACTIVE) (by decide) (by decide) (by decide)).1⟩

/-- C8 counterexample: in the part_004 variant, calling updateTeacherCampusStatus twice
in succession (timestamps 1 then 2) leaves the record with updatedAt = 2, while a
single call leaves updatedAt = 1 - the record contents differ, so the operation is
not idempotent on the full record. -/
theorem C8_updateStatus_counterexample :
    ((findTeacherCampus ((CampusTeacherServiceAlt.updateTeacherCampusStatus permAll 2
        "admin" "c1" "t1" Status.INACTIVE
        ((CampusTeacherServiceAlt.updateTeacherCampusStatus permAll 1
          "admin" "c1" "t1" Status.INACTIVE dbOnePrimary).1)).1) "t1" "c1").map
      TeacherCampus.updatedAt = some 2)
    ∧ ((findTeacherCampus ((CampusTeacherServiceAlt.updateTeacherCampusStatus permAll 1
        "admin" "c1" "t1" Status.INACTIVE dbOnePrimary).1) "t1" "c1").map
      TeacherCampus.updatedAt = some 1) := by
  refine ⟨by decide, by decide⟩

/-- C8 (amended): updateTeacherCampusStatus is idempotent up to the updatedAt
timestamp: in the src/src variant a second call with the same newStatus leaves the
store exactly as after one call, for every starting state; in the part_004 variant
the same holds whenever the two calls carry the same wall-clock timestamp (only the
updatedAt column can differ otherwise, as the counterexample shows). -/
theorem C8_updateStatus_idempotent (perm : String → String → Bool) (now : Nat)
    (userId campusId teacherId : String) (s : Status) (db : DB) :
    ((CampusTeacherService.updateTeacherCampusStatus perm userId campusId teacherId s
        ((CampusTeacherService.updateTeacherCampusStatus perm userId campusId teacherId s
          db).1)).1 =
      (CampusTeacherService.updateTeacherCampusStatus perm userId campusId teacherId s db).1)
    ∧ ((CampusTeacherServiceAlt.updateTeacherCampusStatus perm now userId campusId teacherId s
        ((CampusTeacherServiceAlt.updateTeacherCampusStatus perm now userId campusId teacherId s
          db).1)).1 =
      (CampusTeacherServiceAlt.updateTeacherCampusStatus perm now userId campusId teacherId s
        db).1) := by
  constructor
  · by_cases hperm : perm userId campusId = true
    · cases hpair : findTeacherCampus db teacherId campusId with
      | none =>
          have h1 : (CampusTeacherService.updateTeacherCampusStatus perm userId campusId
              teacherId s db).1 = db := by
            unfold CampusTeacherService.updateTeacherCampusStatus
            simp [hperm, hpair]
          rw [h1]
          exact h1
      | some ex =>
          have h1 := updateStatusA_state perm userId campusId teacherId s db ex hperm hpair
          rw [h1]
          have h2 := findTeacherCampus_after_updateA teacherId campusId s db ex hpair
          rw [updateStatusA_state perm userId campusId teacherId s _ _ hperm h2]
          simp only [List.map_map]
          congr 1
          apply List.map_congr_left
          intro a _
          by_cases h : a.id = ex.id <;> simp [Function.comp, h]
    · have h1 : (CampusTeacherService.updateTeacherCampusStatus perm userId campusId
          teacherId s db).1 = db := by
        unfold CampusTeacherService.updateTeacherCampusStatus
        simp [hperm]
      rw [h1]
      exact h1
  · by_cases hperm : perm userId campusId = true
    · cases hpair : findTeacherCampus db teacherId campusId with
      | none =>
          have h1 : (CampusTeacherServiceAlt.updateTeacherCampusStatus perm now userId campusId
              teacherId s db).1 = db := by
            unfold CampusTeacherServiceAlt.updateTeacherCampusStatus
            simp [hperm, hpair]
          rw [h1]
          exact h1
      | some ex =>
          have h1 := updateStatusAlt_state perm now userId campusId teacherId s db ex hperm hpair
          rw [h1]
          have h2 := findTeacherCampus_after_updateAlt teacherId campusId s now db ex hpair
          rw [updateStatusAlt_state perm now userId campusId teacherId s _ _ hperm h2]
          simp only [List.map_map]
          congr 1
          apply List.map_congr_left
          intro a _
          by_cases ha : a.teacherId = teacherId <;> by_cases hb : a.campusId = campusId <;>
            simp [Function.comp, ha, hb]
    · have h1 : (CampusTeacherServiceAlt.updateTeacherCampusStatus perm now userId campusId
          teacherId s db).1 = db := by
        unfold CampusTeacherServiceAlt.updateTeacherCampusStatus
        simp [hperm]
      rw [h1]
      exact h1

/-- C9: round-trip in the part_004 variant: from any state with no assignment for
(P, C) in which the preconditions of assign hold, assignTeacherToCampus(P, C,
isPrimary = true) followed by getCampusesForTeacher(P) yields exactly one record for
campus C, and that record has isPrimary = true. -/
theorem C9_assign_list_roundtrip (perm : String → String → Bool) (now : Nat)
    (userId requester campusId teacherId : String) (db : DB)
    (p : TeacherProfile) (camp : Campus)
    (hperm : perm userId campusId = true)
    (hfp : findTeacherProfile db teacherId = some p)
    (hfc : findCampus db campusId = some camp)
    (hpair : findTeacherCampus db teacherId campusId = none) :
    ((CampusTeacherServiceAlt.getCampusesForTeacher requester teacherId false
        ((CampusTeacherServiceAlt.assignTeacherToCampus perm now userId campusId teacherId true
          db).1)).toOption).map
      (fun l => (l.filter (fun x => x.campusId == campusId)).map
        (fun x => x.isPrimary)) = some [true] := by
  have hstate : (CampusTeacherServiceAlt.assignTeacherToCampus perm now userId campusId
      teacherId true db).1 =
      { db with
        teacherCampus := db.teacherCampus.map (fun r =>
          if r.teacherId == teacherId && r.isPrimary then { r with isPrimary := false } else r)
          ++ [{ id := db.nextId, teacherId := teacherId, campusId := campusId,
                isPrimary := true, status := Status.ACTIVE,
                joinedAt := now, createdAt := now, updatedAt := now }],
        nextId := db.nextId + 1 } := by
    unfold CampusTeacherServiceAlt.assignTeacherToCampus
    simp [hperm, hfp, hfc, hpair]
  rw [hstate]
  have hfp2 : db.teacherProfiles.find? (fun q => q.id == teacherId) = some p := hfp
  unfold CampusTeacherServiceAlt.getCampusesForTeacher
  unfold findTeacherProfile
  simp only [hfp2, Except.toOption, Option.map]
  congr 1
  exact roundtrip_filter_map _ (fun tc => rfl) (fun tc => rfl) teacherId campusId
    db.teacherCampus _ (findTeacherCampus_none hpair) rfl rfl rfl rfl

/-- C9 witness: the round-trip theorem applied to the state in which t1 has no
assignments and is assigned c1 as primary. -/
theorem C9_assign_list_witness :
    (permAll "admin" "c1" = true
      ∧ findTeacherProfile dbNoAssignments "t1" = some profT1
      ∧ findCampus dbNoAssignments "c1" = some { id := "c1", name := "Campus 1" }
      ∧ findTeacherCampus dbNoAssignments "t1" "c1" = none)
    ∧ ((CampusTeacherServiceAlt.getCampusesForTeacher "u1" "t1" false
        ((CampusTeacherServiceAlt.assignTeacherToCampus permAll 5 "admin" "c1" "t1" true
          dbNoAssignments).1)).toOption).map
      (fun l => (l.filter (fun x => x.campusId == "c1")).map
        (fun x => x.isPrimary)) = some [true] :=
  ⟨⟨by decide, by decide, by decide, by decide⟩,
   C9_assign_list_roundtrip permAll 5 "admin" "u1" "c1" "t1" dbNoAssignments profT1
      { id := "c1", name := "Campus 1" } (by decide) (by decide) (by decide) (by decide)⟩

/-- C10: TeacherService.upsertTeacher writes the isPrimary flag of each supplied
assignment exactly as given and clears no other primary: at the concrete input where
t1 already holds an ACTIVE primary on c1 and the call supplies both c1 and c2 as
primary ACTIVE, the teacher ends with two ACTIVE primary assignments - this mutation
path does not enforce invariant I1. -/
theorem C10_upsertTeacher_two_primaries :
    countActivePrimary "t1" dbOnePrimary.teacherCampus = 1
    ∧ countActivePrimary "t1" ((TeacherService.upsertTeacher 5
        { userId := "u1", teacherType := "REGULAR", specialization := none }
        [{ campusId := "c1", isPrimary := true, status := Status.ACTIVE },
         { campusId := "c2", isPrimary := true, status := Status.ACTIVE }]
        [] [] dbOnePrimary).1).teacherCampus = 2
    ∧ ((TeacherService.upsertTeacher 5
        { userId := "u1", teacherType := "REGULAR", specialization := none }
        [{ campusId := "c1", isPrimary := true, status := Status.ACTIVE },
         { campusId := "c2", isPrimary := true, status := Status.ACTIVE }]
        [] [] dbOnePrimary).1).teacherCampus.map
          (fun r => (r.campusId, r.isPrimary, r.status)) =
      [("c1", true, Status.ACTIVE), ("c2", true, Status.ACTIVE)] := by
  refine ⟨by decide, by decide, by decide⟩
